import Mathlib

/-!
Shallow embedding of the authorization-verification core of the
`mlflow-operator` test harness (`mlflow-tests`), together with proofs of the
spec's claims about it.

Embedded source files:
* `src/mlflow_tests/enums/kube_verb.py` and `enums/resource_type.py`
  (the permission model's enumerations),
* `src/mlflow_tests/manager/rbac.py` (`K8RoleManager.create_role`,
  `create_role_binding`, `verify_rbac_permissions`),
* `src/mlflow_tests/managers/k8s/rbac.py` (the second
  `verify_rbac_permissions` variant),
* `tests/shared/error_models.py` (`ErrorResponse._classify_error`,
  `ErrorResponse.from_exception`),
* `tests/base.py` (`TestBase._execute_action`, `TestBase._execute_validation`).

Python strings are modelled as lists of code points (`PyStr := List Nat`);
Python's `str.lower()` is modelled for the ASCII range, which covers every
pattern the code matches on.  Backend calls (Kubernetes API) are modelled by
explicit response/stub parameters.  A Python function that can raise is
modelled with an explicit outcome type naming the exception path.
-/

/-- Python strings as lists of Unicode code points. -/
abbrev PyStr := List Nat

/-- Code points of a Lean string literal, used to transcribe the string
literals of the Python source. -/
def pyStr (s : String) : PyStr := s.toList.map Char.toNat

/-- ASCII lowering of one code point: `str.lower()` restricted to ASCII. -/
def lowCode (c : Nat) : Nat := if 65 ≤ c ∧ c ≤ 90 then c + 32 else c

/-- `str.lower()` on an ASCII string. -/
def pyLower (s : PyStr) : PyStr := s.map lowCode

/-- `p` is a leading segment of `s` (helper for the substring test). -/
def isPref : PyStr → PyStr → Bool
  | [], _ => true
  | _ :: _, [] => false
  | a :: as, b :: bs => a == b && isPref as bs

/-- Python's `pat in s` for strings: contiguous substring containment. -/
def hasSub (pat : PyStr) : PyStr → Bool
  | [] => isPref pat []
  | s@(_ :: t) => isPref pat s || hasSub pat t

theorem isPref_self_append (p b : PyStr) : isPref p (p ++ b) = true := by
  induction p with
  | nil => rfl
  | cons a as ih => simp [isPref, ih]

theorem hasSub_self_append (p b : PyStr) : hasSub p (p ++ b) = true := by
  cases p with
  | nil => cases b <;> simp [hasSub, isPref]
  | cons a as =>
    have h := isPref_self_append (a :: as) b
    simp only [List.cons_append] at h
    simp [hasSub, h]

theorem hasSub_append_left (a p s : PyStr) (h : hasSub p s = true) :
    hasSub p (a ++ s) = true := by
  induction a with
  | nil => simpa using h
  | cons x xs ih => simp [hasSub, ih]

/-- The substring `p` occurs in any string of the form `a ++ p ++ b`. -/
theorem hasSub_of_append (a p b : PyStr) : hasSub p (a ++ p ++ b) = true := by
  rw [List.append_assoc]
  exact hasSub_append_left a p (p ++ b) (hasSub_self_append p b)

theorem isPref_map (f : Nat → Nat) (p s : PyStr) (h : isPref p s = true) :
    isPref (p.map f) (s.map f) = true := by
  induction p generalizing s with
  | nil => rfl
  | cons a as ih =>
    cases s with
    | nil => simp [isPref] at h
    | cons b bs =>
      simp only [isPref, Bool.and_eq_true, beq_iff_eq] at h
      simp [isPref, h.1, ih bs h.2]

theorem hasSub_map (f : Nat → Nat) (p s : PyStr) (h : hasSub p s = true) :
    hasSub (p.map f) (s.map f) = true := by
  induction s with
  | nil =>
    cases p with
    | nil => rfl
    | cons a as => simp [hasSub, isPref] at h
  | cons b bs ih =>
    simp only [hasSub, Bool.or_eq_true] at h
    rcases h with h | h
    · have := isPref_map f p (b :: bs) h
      simp only [List.map_cons] at this ⊢
      simp [hasSub, this]
    · simp only [List.map_cons]
      simp [hasSub, ih h]

/-! ## Permission model enumerations (`enums/kube_verb.py`, `enums/resource_type.py`) -/

/-- `KubeVerb` enum: the five Kubernetes RBAC verbs. -/
inductive KubeVerb
  | get
  | create
  | list
  | update
  | delete
deriving DecidableEq, Repr

/-- `KubeVerb.value`: the string value of each enum member. -/
def KubeVerb.value : KubeVerb → String
  | .get => "get"
  | .create => "create"
  | .list => "list"
  | .update => "update"
  | .delete => "delete"

/-- `ResourceType` enum: MLflow resource kinds for RBAC. -/
inductive ResourceType
  | EXPERIMENTS
  | REGISTERED_MODELS
  | RUNS
  | GATEWAY_SECRETS
  | GATEWAY_ENDPOINTS
  | GATEWAY_MODEL_DEFINITIONS
deriving DecidableEq, Repr

/-- `ResourceType.get_k8s_resource`: the enum value, i.e. the K8s resource
name used in RBAC rules. -/
def ResourceType.get_k8s_resource : ResourceType → String
  | .EXPERIMENTS => "experiments"
  | .REGISTERED_MODELS => "registeredmodels"
  | .RUNS => "jobs"
  | .GATEWAY_SECRETS => "gatewaysecrets"
  | .GATEWAY_ENDPOINTS => "gatewayendpoints"
  | .GATEWAY_MODEL_DEFINITIONS => "gatewaymodeldefinitions"

/-- `ResourceType.get_k8s_sub_resources`: declared sub-resources of each
kind (empty for non-gateway kinds). -/
def ResourceType.get_k8s_sub_resources : ResourceType → List String
  | .GATEWAY_SECRETS => ["gatewaysecrets/use"]
  | .GATEWAY_ENDPOINTS => ["gatewayendpoints/use"]
  | .GATEWAY_MODEL_DEFINITIONS => ["gatewaymodeldefinitions/use"]
  | _ => []

/-! ## `K8RoleManager.create_role` (`manager/rbac.py`, lines 23-124) -/

/-- `kubernetes.client.V1PolicyRule`: the fields the code sets. -/
structure V1PolicyRule where
  api_groups : List String
  resources : List String
  verbs : List String
deriving DecidableEq, Repr

/-- The rule list built by `create_role` (`manager/rbac.py` lines 43-107),
before submission to the backend.  `subresources = none` models the Python
default `subresources=None`; line 45 (`subresources = subresources or []`)
is the `match`/emptiness collapse below. -/
def create_role_rules (verbs : List KubeVerb) (resources : List ResourceType)
    (subresources : Option (List String)) : List V1PolicyRule :=
  let main_verbs := verbs.map KubeVerb.value
  -- line 45: `subresources = subresources or []` (None and [] both become [])
  let subres := match subresources with
    | none => []
    | some l => l
  let resource_names := resources.map ResourceType.get_k8s_resource
  -- Rule 1: main resources, only if `resource_names` is truthy (non-empty)
  let rules1 : List V1PolicyRule :=
    if resource_names = [] then []
    else [⟨["mlflow.kubeflow.org"], resource_names, main_verbs⟩]
  -- Rule 2: sub-resources, explicit branch (line 65) or auto-detection (line 74)
  let rules2 : List V1PolicyRule :=
    if subres ≠ [] then
      [⟨["mlflow.kubeflow.org"], subres, ["create"]⟩]
    else
      let gateway_sub_resources := resources.flatMap ResourceType.get_k8s_sub_resources
      if gateway_sub_resources ≠ [] ∧ KubeVerb.create ∈ verbs then
        [⟨["mlflow.kubeflow.org"], gateway_sub_resources, ["create"]⟩]
      else []
  -- Rule 3: core API rule; verbs depend on whether CREATE was requested (line 91)
  let core_verbs := if KubeVerb.create ∉ verbs then ["get", "list"]
    else ["get", "list", "create"]
  let rules3 : List V1PolicyRule :=
    [⟨[""], ["namespaces", "serviceaccounts", "secrets"], core_verbs⟩]
  -- Rule 4: RBAC read rule (lines 101-105)
  let rules4 : List V1PolicyRule :=
    [⟨["rbac.authorization.k8s.io"], ["roles", "rolebindings"], ["get", "list"]⟩]
  rules1 ++ rules2 ++ rules3 ++ rules4

/-- Response of one `create_namespaced_role` / `create_namespaced_role_binding`
backend call. -/
inductive ApiResult
  | created
  | conflict409
  | failure
deriving DecidableEq, Repr

/-- How a call to `create_role` / `create_role_binding` terminates. -/
inductive CallOutcome
  /-- the function returned normally -/
  | ok
  /-- a `NameError` escaped (unbound local `gateway_sub_resources`, line 118) -/
  | nameError
  /-- a non-409 `ApiException` was re-raised -/
  | apiError
deriving DecidableEq, Repr

/-- Control-flow outcome of `create_role` (`manager/rbac.py` lines 115-124)
given the backend's response.  On a successful creation the function executes
the logging statement at line 118, which reads the local variable
`gateway_sub_resources`; that variable is bound only when the auto-detection
branch (line 74, taken iff the collapsed `subresources` is empty) ran, so the
explicit non-empty branch raises `NameError` (not an `ApiException`, hence
not caught). -/
def create_role_outcome (verbs : List KubeVerb) (resources : List ResourceType)
    (subresources : Option (List String)) (backend : ApiResult) : CallOutcome :=
  let subres := match subresources with
    | none => []
    | some l => l
  match backend with
  | .created => if subres = [] then .ok else .nameError
  | .conflict409 => .ok
  | .failure => .apiError

/-- Control-flow outcome of `create_role_binding` (`manager/rbac.py`
lines 161-168): 409 ignored, everything else re-raised. -/
def create_role_binding_outcome (backend : ApiResult) : CallOutcome :=
  match backend with
  | .created => .ok
  | .conflict409 => .ok
  | .failure => .apiError

/-- The provisioner's grant (`manager/user.py` `create_role`, lines 84-95):
`K8RoleManager.create_role` followed, when it returned, by
`create_role_binding`.  The two `ApiResult`s are the backend responses to the
role and binding creations. -/
def grant_outcome (verbs : List KubeVerb) (resources : List ResourceType)
    (subresources : Option (List String))
    (roleBackend bindingBackend : ApiResult) : CallOutcome :=
  match create_role_outcome verbs resources subresources roleBackend with
  | .ok => create_role_binding_outcome bindingBackend
  | e => e

/-- A rule shaped like a sub-resource rule: a non-empty resource list all of
whose entries are `parent/sub` names (contain a slash).  Main-resource names
and the bootstrap rules' resource names never contain a slash, so within the
output of `create_role_rules` this characterises exactly the sub-resource
rule. -/
def isSubResourceRule (r : V1PolicyRule) : Prop :=
  r.resources ≠ [] ∧ ∀ s ∈ r.resources, ('/' ∈ s.toList)

instance (r : V1PolicyRule) : Decidable (isSubResourceRule r) := by
  unfold isSubResourceRule; infer_instance

/-! ## Error classifier (`tests/shared/error_models.py`) -/

/-- `ErrorCode` enum (`error_models.py` lines 12-23). -/
inductive ErrorCode
  | PERMISSION_DENIED
  | UNAUTHENTICATED
  | FORBIDDEN
  | AUTHENTICATION_FAILED
  | RESOURCE_NOT_FOUND
  | RESOURCE_ALREADY_EXISTS
  | INVALID_REQUEST
  | INTERNAL_ERROR
  | WORKSPACE_ACCESS_DENIED
  | QUOTA_EXCEEDED
deriving DecidableEq, Repr

/-- The string value of each `ErrorCode` member (pydantic stores the enum's
string value, which is what the f-strings interpolate). -/
def ErrorCode.value : ErrorCode → PyStr
  | .PERMISSION_DENIED => pyStr "PERMISSION_DENIED"
  | .UNAUTHENTICATED => pyStr "UNAUTHENTICATED"
  | .FORBIDDEN => pyStr "FORBIDDEN"
  | .AUTHENTICATION_FAILED => pyStr "AUTHENTICATION_FAILED"
  | .RESOURCE_NOT_FOUND => pyStr "RESOURCE_NOT_FOUND"
  | .RESOURCE_ALREADY_EXISTS => pyStr "RESOURCE_ALREADY_EXISTS"
  | .INVALID_REQUEST => pyStr "INVALID_REQUEST"
  | .INTERNAL_ERROR => pyStr "INTERNAL_ERROR"
  | .WORKSPACE_ACCESS_DENIED => pyStr "WORKSPACE_ACCESS_DENIED"
  | .QUOTA_EXCEEDED => pyStr "QUOTA_EXCEEDED"

/-- `ErrorResponse._classify_error` (`error_models.py` lines 83-124):
ordered case-insensitive substring matching, first match wins, default
`INTERNAL_ERROR`. -/
def _classify_error (error_message : PyStr) : ErrorCode :=
  let el := pyLower error_message
  if hasSub (pyStr "permission") el && hasSub (pyStr "denied") el then
    .PERMISSION_DENIED
  else if hasSub (pyStr "unauthenticated") el then
    .UNAUTHENTICATED
  else if hasSub (pyStr "forbidden") el then
    .FORBIDDEN
  else if hasSub (pyStr "authentication") el && hasSub (pyStr "failed") el then
    .AUTHENTICATION_FAILED
  else if hasSub (pyStr "not found") el || hasSub (pyStr "does not exist") el then
    .RESOURCE_NOT_FOUND
  else if hasSub (pyStr "already exists") el || hasSub (pyStr "duplicate") el then
    .RESOURCE_ALREADY_EXISTS
  else if hasSub (pyStr "workspace") el
      && (hasSub (pyStr "access") el || hasSub (pyStr "denied") el) then
    .WORKSPACE_ACCESS_DENIED
  else if hasSub (pyStr "quota") el || hasSub (pyStr "limit") el then
    .QUOTA_EXCEEDED
  else if hasSub (pyStr "invalid") el || hasSub (pyStr "bad request") el then
    .INVALID_REQUEST
  else
    .INTERNAL_ERROR

/-- Every substring pattern appearing in `_classify_error`'s table.  "No
pattern matches" means none of these occurs in the lowered message. -/
def classifierPats : List PyStr :=
  [pyStr "permission", pyStr "denied", pyStr "unauthenticated",
   pyStr "forbidden", pyStr "authentication", pyStr "failed",
   pyStr "not found", pyStr "does not exist", pyStr "already exists",
   pyStr "duplicate", pyStr "workspace", pyStr "access", pyStr "quota",
   pyStr "limit", pyStr "invalid", pyStr "bad request"]

/-- Python truthiness of an optional string: `None` and `""` are falsy. -/
def pyTruthy : Option PyStr → Bool
  | none => false
  | some s => !s.isEmpty

/-- `", ".join(parts)`. -/
def joinComma : List PyStr → PyStr
  | [] => []
  | [x] => x
  | x :: xs => x ++ pyStr ", " ++ joinComma xs

/-- The `Error` payload of an `ErrorResponse` (`error_models.py` lines
26-32): code, message, optional details. -/
structure ErrorInfo where
  code : ErrorCode
  message : PyStr
  details : Option PyStr
deriving DecidableEq, Repr

/-- `ErrorResponse.from_exception` (`error_models.py` lines 49-81):
classify `str(exception)`, and build a `"Context: User: u, Workspace: w"`
details string from whichever of `user`/`workspace` are truthy. -/
def from_exception (excMessage : PyStr) (workspace user : Option PyStr) :
    ErrorInfo :=
  let error_code := _classify_error excMessage
  let details :=
    if pyTruthy workspace || pyTruthy user then
      let context_parts :=
        (if pyTruthy user then [pyStr "User: " ++ user.getD []] else [])
          ++ (if pyTruthy workspace then
                [pyStr "Workspace: " ++ workspace.getD []] else [])
      some (pyStr "Context: " ++ joinComma context_parts)
    else none
  ⟨error_code, excMessage, details⟩

/-! ## Step executor (`tests/base.py`) -/

/-- The slice of `TestContext` the executor reads and writes: the single
most recent classified error, the active user's name (absent when
`active_user is None`) and the active workspace. -/
structure TestContext where
  last_error : Option ErrorInfo
  active_user : Option PyStr
  active_workspace : Option PyStr
deriving DecidableEq, Repr

/-- `TestBase._execute_action` (`base.py` lines 413-442).  The action's run
is summarised by `actionRaised`: `none` when `action_func` returned,
`some msg` when it raised an exception whose `str()` is `msg`.  A raise is
caught and classified into `last_error`; a normal return writes nothing. -/
def execute_action (ctx : TestContext) (actionRaised : Option PyStr) :
    TestContext :=
  match actionRaised with
  | none => ctx
  | some msg =>
    let workspace := ctx.active_workspace
    let user := ctx.active_user
    { ctx with last_error := some (from_exception msg workspace user) }

/-- A step's validation function: its `__name__` and its body.  The body
returns `none` when the validation passes and `some m` when it raises an
`AssertionError` with message `m`. -/
structure Validation where
  vname : PyStr
  body : TestContext → Option PyStr

/-- How `_execute_validation` terminates. -/
inductive ValidationResult
  /-- the executor's short-circuit raised an `AssertionError` with this
  message, without invoking the validation body -/
  | raisedBeforeBody (msg : PyStr)
  /-- the body ran and returned -/
  | passed
  /-- the body ran and raised an `AssertionError` with this message -/
  | bodyRaised (msg : PyStr)
deriving DecidableEq, Repr

/-- The `AssertionError` message the executor's short-circuit builds
(`base.py` lines 464-472): user name via None-check, workspace via
truthiness (`or "unknown"`), then the action name, the classified error's
code and message, and the details when truthy. -/
def shortCircuitMsg (ctx : TestContext) (action_name : PyStr)
    (err : ErrorInfo) : PyStr :=
  let user_name := ctx.active_user.getD (pyStr "unknown")
  -- `self.test_context.active_workspace or "unknown"`
  let workspace := match ctx.active_workspace with
    | some w => if w.isEmpty then pyStr "unknown" else w
    | none => pyStr "unknown"
  let error_msg :=
    pyStr "Action '" ++ action_name ++ pyStr "' failed for user "
      ++ user_name ++ pyStr " in workspace " ++ workspace ++ pyStr ": "
      ++ err.code.value ++ pyStr " - " ++ err.message
  if pyTruthy err.details then
    error_msg ++ pyStr "\nDetails: " ++ err.details.getD []
  else error_msg

/-- `TestBase._execute_validation` (`base.py` lines 444-481). -/
def execute_validation (ctx : TestContext) (v : Validation)
    (action_name : PyStr) : ValidationResult :=
  let runBody : ValidationResult :=
    match v.body ctx with
    | none => .passed
    | some m => .bodyRaised m
  match ctx.last_error with
  | some err =>
    if v.vname ≠ pyStr "validate_authentication_denied" then
      .raisedBeforeBody (shortCircuitMsg ctx action_name err)
    else runBody
  | none => runBody

/-- The short-circuit raised an assertion whose message carries the given
code string and message string. -/
def raisedWithInfo (r : ValidationResult) (code msg : PyStr) : Bool :=
  match r with
  | .raisedBeforeBody m => hasSub code m && hasSub msg m
  | _ => false

/-! ## `verify_rbac_permissions`: the two variants

The decision backend (`create_subject_access_review`) is modelled by a stub
`Nat → SarOutcome` indexed by the number of queries issued so far; delays are
exact rationals (the backoff factor 1.2 is `6/5`). -/

/-- Outcome of one decision query: `status.allowed` true, `status.allowed`
false, or the call itself raising. -/
inductive SarOutcome
  | allowed
  | denied
  | apiError
deriving DecidableEq, Repr

/-- Verifier loop state: queries issued so far, current `retry_delay`, the
trace of issued queries `(api_group, outcome)`, and the slept delays. -/
structure VSt where
  qcount : Nat
  delay : ℚ
  trace : List (String × SarOutcome)
  sleeps : List ℚ
deriving DecidableEq, Repr

/-- How a `verify_rbac_permissions` call terminates. -/
inductive VerifyResult
  /-- returned at the `if result.status.allowed` success path -/
  | verified
  /-- raised (`manager/rbac.py` line 244 `raise RuntimeError`) -/
  | raisedError
  /-- logged warnings and returned without raising
  (`managers/k8s/rbac.py` lines 230-238) -/
  | warnedAndContinued
deriving DecidableEq, Repr

/-- Record one query against `group` in the state. -/
def VSt.query (st : VSt) (group : String) (d : SarOutcome) : VSt :=
  { st with qcount := st.qcount + 1, trace := st.trace ++ [(group, d)] }

/-- `time.sleep(retry_delay); retry_delay *= 1.2`. -/
def VSt.sleepBackoff (st : VSt) : VSt :=
  { st with sleeps := st.sleeps ++ [st.delay], delay := st.delay * (6 / 5) }

namespace Manager

/-- Inner `for attempt in range(max_retries)` loop of
`manager/rbac.py:verify_rbac_permissions` (lines 218-239) for one
`api_group`.  `fuel` is the number of loop iterations left and `attempt` the
Python loop index (`fuel + attempt = max_retries` at every call).  A denial
sleeps (when not on the last attempt) and retries the same group; a query
exception sleeps (the guard `attempt < max_retries` always holds, so the
`else: break` is dead) and retries.  Returns whether an allow short-circuited
the call. -/
def attemptLoop (stub : Nat → SarOutcome) (max_retries : Nat) (group : String) :
    Nat → Nat → VSt → Bool × VSt
  | 0, _, st => (false, st)
  | fuel + 1, attempt, st =>
    let d := stub st.qcount
    let st1 := st.query group d
    match d with
    | .allowed => (true, st1)
    | .denied =>
      if attempt < max_retries - 1 then
        attemptLoop stub max_retries group fuel (attempt + 1) st1.sleepBackoff
      else
        attemptLoop stub max_retries group fuel (attempt + 1) st1
    | .apiError =>
      if attempt < max_retries then
        attemptLoop stub max_retries group fuel (attempt + 1) st1.sleepBackoff
      else
        (false, st1)

/-- Outer `for api_group in api_groups_to_try` loop (lines 201-239). -/
def groupLoop (stub : Nat → SarOutcome) (max_retries : Nat) :
    List String → VSt → Bool × VSt
  | [], st => (false, st)
  | g :: gs, st =>
    let r := attemptLoop stub max_retries g max_retries 0 st
    if r.1 then r else groupLoop stub max_retries gs r.2

/-- `api_groups_to_try` of `manager/rbac.py` (lines 197-199): a single
qualifier. -/
def api_groups_to_try : List String := ["mlflow.kubeflow.org"]

/-- `manager/rbac.py:verify_rbac_permissions` (lines 170-244): on exhaustion
of all qualifiers it raises `RuntimeError` (line 244). -/
def verify_rbac_permissions (stub : Nat → SarOutcome) (max_retries : Nat)
    (retry_delay : ℚ) : VerifyResult × VSt :=
  let r := groupLoop stub max_retries api_groups_to_try
    ⟨0, retry_delay, [], []⟩
  if r.1 then (.verified, r.2) else (.raisedError, r.2)

end Manager

namespace ManagersK8s

/-- Inner attempt loop of `managers/k8s/rbac.py:verify_rbac_permissions`
(lines 207-228).  A denial sleeps (when not on the last attempt) and then
unconditionally `break`s to the next api group (line 220); a query exception
sleeps and retries while `attempt < max_retries - 1`, else `break`s. -/
def attemptLoop (stub : Nat → SarOutcome) (max_retries : Nat) (group : String) :
    Nat → Nat → VSt → Bool × VSt
  | 0, _, st => (false, st)
  | fuel + 1, attempt, st =>
    let d := stub st.qcount
    let st1 := st.query group d
    match d with
    | .allowed => (true, st1)
    | .denied =>
      if attempt < max_retries - 1 then (false, st1.sleepBackoff)
      else (false, st1)
    | .apiError =>
      if attempt < max_retries - 1 then
        attemptLoop stub max_retries group fuel (attempt + 1) st1.sleepBackoff
      else
        (false, st1)

/-- Outer api-group loop (lines 191-228). -/
def groupLoop (stub : Nat → SarOutcome) (max_retries : Nat) :
    List String → VSt → Bool × VSt
  | [], st => (false, st)
  | g :: gs, st =>
    let r := attemptLoop stub max_retries g max_retries 0 st
    if r.1 then r else groupLoop stub max_retries gs r.2

/-- `api_groups_to_try` of `managers/k8s/rbac.py` (lines 184-189): four
qualifiers. -/
def api_groups_to_try : List String :=
  ["mlflow.kubeflow.org", "mlflow.org", "kubeflow.org", ""]

/-- `managers/k8s/rbac.py:verify_rbac_permissions` (lines 157-238): on
exhaustion it logs warnings and returns normally (lines 230-238), it never
raises. -/
def verify_rbac_permissions (stub : Nat → SarOutcome) (max_retries : Nat)
    (retry_delay : ℚ) : VerifyResult × VSt :=
  let r := groupLoop stub max_retries api_groups_to_try
    ⟨0, retry_delay, [], []⟩
  if r.1 then (.verified, r.2) else (.warnedAndContinued, r.2)

end ManagersK8s

/-! ## Bootstrap pair (for C5) -/

/-- The two rules appended unconditionally at the end of every
`create_role` rule list (`manager/rbac.py` lines 89-107).  The core rule's
verb list depends on whether `CREATE` is among the requested verbs. -/
def bootstrapPair (verbs : List KubeVerb) : List V1PolicyRule :=
  [⟨[""], ["namespaces", "serviceaccounts", "secrets"],
    if KubeVerb.create ∉ verbs then ["get", "list"]
    else ["get", "list", "create"]⟩,
   ⟨["rbac.authorization.k8s.io"], ["roles", "rolebindings"], ["get", "list"]⟩]

/-- The last two elements of a rule list. -/
def lastTwo (l : List V1PolicyRule) : List V1PolicyRule := l.drop (l.length - 2)

theorem lastTwo_append (front : List V1PolicyRule) (a b : V1PolicyRule) :
    lastTwo (front ++ [a, b]) = [a, b] := by
  unfold lastTwo
  have h : (front ++ [a, b]).length - 2 = front.length := by
    simp [List.length_append]
  rw [h, List.drop_left]

/-! ## Claims C2, C5, C6, C9, C10 -/

/-- C10: for every call to `create_role` with an explicitly supplied
non-empty `subresources` list, a successful backend submission of the role is
followed by a `NameError` (line 118 reads `gateway_sub_resources`, assigned
only on the auto-detection branch), so this path never returns normally on
backend success even though the role was created. -/
theorem c10_explicit_subresources_nameError
    (verbs : List KubeVerb) (resources : List ResourceType)
    (subs : List String) (h : subs ≠ []) :
    create_role_outcome verbs resources (some subs) .created = .nameError := by
  simp [create_role_outcome, h]

theorem c10_witness :
    create_role_outcome [KubeVerb.create] [ResourceType.EXPERIMENTS]
      (some ["gatewaysecrets/use"]) .created = .nameError :=
  c10_explicit_subresources_nameError _ _ _ (by decide)

/-- C9 counterexample: step 1's action raises `permission denied`, step 2's
action succeeds; afterwards the context still holds step 1's classified
error, so the last-error field is NOT overwritten by every executed action
and DOES retain the classified error of an earlier step's failed action. -/
theorem c9_counterexample :
    (execute_action
        (execute_action ⟨none, some (pyStr "alice"), some (pyStr "ws-a")⟩
          (some (pyStr "permission denied")))
        none).last_error
      = some ⟨.PERMISSION_DENIED, pyStr "permission denied",
              some (pyStr "Context: User: alice, Workspace: ws-a")⟩ := by
  decide

/-- C9 amended: an action that raises stores the freshly classified error
(overwriting any previous one, so only the most recent failure is kept), and
the raise is captured, never propagated; but an action that succeeds leaves
the context — in particular `last_error` — completely unchanged, so an
earlier step's classified error is retained across later successful
actions. -/
theorem c9_amended (ctx : TestContext) (m1 m2 : PyStr) :
    (execute_action ctx (some m1)).last_error
        = some (from_exception m1 ctx.active_workspace ctx.active_user)
      ∧ (execute_action (execute_action ctx (some m1)) (some m2)).last_error
        = some (from_exception m2 ctx.active_workspace ctx.active_user)
      ∧ execute_action ctx none = ctx :=
  ⟨rfl, rfl, rfl⟩

/-- C2 counterexample: `create_role` called with verbs containing `create`,
a resource kind declaring sub-resources, and an explicitly supplied empty
list `[]` — the produced rule list DOES contain a sub-resource rule, because
line 45 (`subresources = subresources or []`) collapses explicit `[]` into
the not-supplied case and auto-detection runs. -/
theorem c2_counterexample :
    (⟨["mlflow.kubeflow.org"], ["gatewaysecrets/use"], ["create"]⟩ :
        V1PolicyRule)
      ∈ create_role_rules [KubeVerb.create] [ResourceType.GATEWAY_SECRETS]
          (some []) := by
  decide

/-- C2 amended: an explicitly supplied empty `subresources` list is
indistinguishable from not supplying the parameter — `subresources or []`
maps both to `[]` — so auto-detection is NOT skipped: the produced rule list
is identical to the `None` case, and when the verbs include `create` and a
requested kind declares sub-resources, a sub-resource rule is emitted even
for explicit `[]`. -/
theorem c2_amended (verbs : List KubeVerb) (resources : List ResourceType) :
    create_role_rules verbs resources (some [])
        = create_role_rules verbs resources none
      ∧ (KubeVerb.create ∈ verbs →
          resources.flatMap ResourceType.get_k8s_sub_resources ≠ [] →
          (⟨["mlflow.kubeflow.org"],
            resources.flatMap ResourceType.get_k8s_sub_resources,
            ["create"]⟩ : V1PolicyRule)
            ∈ create_role_rules verbs resources (some [])) := by
  constructor
  · rfl
  · intro hc hg
    simp only [create_role_rules]
    simp [hg, hc]

theorem c2_witness :
    (⟨["mlflow.kubeflow.org"], ["gatewayendpoints/use"], ["create"]⟩ :
        V1PolicyRule)
      ∈ create_role_rules [KubeVerb.create, KubeVerb.get]
          [ResourceType.GATEWAY_ENDPOINTS] (some []) :=
  (c2_amended _ _).2 (by decide) (by decide)

/-- C5 counterexample: two capability requests differing only in the verb
(`get` vs `create`) produce different appended bootstrap rules — the core
rule's verb list gains `"create"` — so the pair is not capability-
independent. -/
theorem c5_counterexample :
    create_role_rules [KubeVerb.get] [ResourceType.EXPERIMENTS] none
        = [⟨["mlflow.kubeflow.org"], ["experiments"], ["get"]⟩,
           ⟨[""], ["namespaces", "serviceaccounts", "secrets"],
            ["get", "list"]⟩,
           ⟨["rbac.authorization.k8s.io"], ["roles", "rolebindings"],
            ["get", "list"]⟩]
      ∧ create_role_rules [KubeVerb.create] [ResourceType.EXPERIMENTS] none
        = [⟨["mlflow.kubeflow.org"], ["experiments"], ["create"]⟩,
           ⟨[""], ["namespaces", "serviceaccounts", "secrets"],
            ["get", "list", "create"]⟩,
           ⟨["rbac.authorization.k8s.io"], ["roles", "rolebindings"],
            ["get", "list"]⟩]
      ∧ (⟨[""], ["namespaces", "serviceaccounts", "secrets"],
          ["get", "list"]⟩ : V1PolicyRule)
          ≠ ⟨[""], ["namespaces", "serviceaccounts", "secrets"],
             ["get", "list", "create"]⟩ := by
  decide

/-- C5 amended: every produced rule list ends with the two bootstrap rules;
the RBAC-objects read rule is fully fixed, and the core rule's api group and
resources are fixed, but its verb list depends on the requested capability
through exactly one bit — whether `create` is among the requested verbs
(`["get","list"]` without it, `["get","list","create"]` with it).  Two
requests agreeing on that bit get identical appended pairs. -/
theorem c5_amended (v1 v2 : List KubeVerb) (r1 r2 : List ResourceType)
    (s1 s2 : Option (List String)) :
    lastTwo (create_role_rules v1 r1 s1) = bootstrapPair v1
      ∧ ((KubeVerb.create ∈ v1 ↔ KubeVerb.create ∈ v2) →
          bootstrapPair v1 = bootstrapPair v2) := by
  constructor
  · show lastTwo (_ ++ _ ++ _ ++ _) = _
    rw [List.append_assoc]
    exact lastTwo_append _ _ _
  · intro h
    by_cases hc : KubeVerb.create ∈ v1
    · simp [bootstrapPair, hc, h.mp hc]
    · simp [bootstrapPair, hc, (not_iff_not.mpr h).mp hc]

theorem c5_witness :
    lastTwo (create_role_rules [KubeVerb.get] [ResourceType.RUNS] none)
        = bootstrapPair [KubeVerb.get]
      ∧ bootstrapPair [KubeVerb.get] = bootstrapPair [KubeVerb.list] :=
  ⟨(c5_amended [KubeVerb.get] [KubeVerb.list] [ResourceType.RUNS] []
      none none).1,
   (c5_amended [KubeVerb.get] [KubeVerb.list] [ResourceType.RUNS] []
      none none).2 (by decide)⟩

/-- C6 counterexample: a grant whose `subresources` argument is an
explicitly supplied non-empty list errors on the FIRST call even though the
backend creations succeed — `create_role` raises `NameError` after the role
is created (see C10) — so "calling grant twice with identical arguments
produces no error" fails as stated. -/
theorem c6_counterexample :
    grant_outcome [KubeVerb.create] [ResourceType.GATEWAY_SECRETS]
        (some ["gatewaysecrets/use"]) .created .created = .nameError := by
  decide

/-- C6 amended: a 409 on role creation or on binding creation is treated as
success and not surfaced; any non-409 backend `ApiException` is propagated
(role failure pre-empts the binding call, binding failure propagates); and
the double-grant (first call sees `created`, second sees 409) produces no
error PROVIDED the subresources argument is absent or empty — with an
explicit non-empty list the first call raises a `NameError` (C10's bug)
despite backend success. -/
theorem c6_amended (verbs : List KubeVerb) (resources : List ResourceType)
    (subs : Option (List String)) (bb : ApiResult) :
    grant_outcome verbs resources subs .conflict409 .conflict409 = .ok
      ∧ (subs = none ∨ subs = some [] →
          grant_outcome verbs resources subs .created .created = .ok
            ∧ grant_outcome verbs resources subs .created .conflict409 = .ok
            ∧ grant_outcome verbs resources subs .conflict409 .created = .ok)
      ∧ grant_outcome verbs resources subs .failure bb = .apiError
      ∧ grant_outcome verbs resources subs .conflict409 .failure = .apiError
      ∧ (subs = none ∨ subs = some [] →
          grant_outcome verbs resources subs .created .failure = .apiError) := by
  refine ⟨rfl, ?_, rfl, rfl, ?_⟩
  · rintro (rfl | rfl) <;> exact ⟨rfl, rfl, rfl⟩
  · rintro (rfl | rfl) <;> rfl

theorem c6_witness :
    grant_outcome [KubeVerb.get] [ResourceType.EXPERIMENTS] none
        .conflict409 .conflict409 = .ok
      ∧ grant_outcome [KubeVerb.get] [ResourceType.EXPERIMENTS] none
        .created .created = .ok
      ∧ grant_outcome [KubeVerb.get] [ResourceType.EXPERIMENTS] none
        .created .failure = .apiError :=
  ⟨(c6_amended [KubeVerb.get] [ResourceType.EXPERIMENTS] none .created).1,
   ((c6_amended [KubeVerb.get] [ResourceType.EXPERIMENTS] none
       .created).2.1 (Or.inl rfl)).1,
   (c6_amended [KubeVerb.get] [ResourceType.EXPERIMENTS] none
       .created).2.2.2.2 (Or.inl rfl)⟩

/-! ## Claim C7 -/

theorem lowCode_idem (c : Nat) : lowCode (lowCode c) = lowCode c := by
  unfold lowCode
  split
  · next h => split <;> omega
  · rfl

theorem pyLower_idem (s : PyStr) : pyLower (pyLower s) = pyLower s := by
  induction s with
  | nil => rfl
  | cons a as ih =>
    simp only [pyLower, List.map_cons] at ih ⊢
    rw [lowCode_idem, ih]

/-- A lowercase pattern contained in the raw message is contained in the
lowered message. -/
theorem hasSub_pyLower (pat s : PyStr) (hfix : pyLower pat = pat)
    (h : hasSub pat s = true) : hasSub pat (pyLower s) = true := by
  have := hasSub_map lowCode pat s h
  rwa [show pat.map lowCode = pat from hfix] at this

/-- C7: the error classifier `_classify_error` is a total, deterministic,
pure function of the message: equal messages get equal (single) kinds; it is
case-insensitive (lowering the message first does not change the result);
when none of the table's substring patterns occurs it returns the default
`INTERNAL_ERROR`; and the priority order holds — any message containing both
`"permission"` and `"denied"` classifies as `PERMISSION_DENIED`, regardless
of what else (e.g. `"not found"`) it contains. -/
theorem c7_classifier_total_deterministic (s : PyStr) :
    (∀ t, s = t → _classify_error s = _classify_error t)
      ∧ _classify_error (pyLower s) = _classify_error s
      ∧ ((∀ p ∈ classifierPats, hasSub p (pyLower s) = false) →
          _classify_error s = .INTERNAL_ERROR)
      ∧ (hasSub (pyStr "permission") s = true →
          hasSub (pyStr "denied") s = true →
          _classify_error s = .PERMISSION_DENIED) := by
  refine ⟨fun t h => by rw [h], ?_, ?_, ?_⟩
  · unfold _classify_error
    rw [pyLower_idem]
  · intro h
    have h1 := h (pyStr "permission") (by simp [classifierPats])
    have h2 := h (pyStr "denied") (by simp [classifierPats])
    have h3 := h (pyStr "unauthenticated") (by simp [classifierPats])
    have h4 := h (pyStr "forbidden") (by simp [classifierPats])
    have h5 := h (pyStr "authentication") (by simp [classifierPats])
    have h6 := h (pyStr "failed") (by simp [classifierPats])
    have h7 := h (pyStr "not found") (by simp [classifierPats])
    have h8 := h (pyStr "does not exist") (by simp [classifierPats])
    have h9 := h (pyStr "already exists") (by simp [classifierPats])
    have h10 := h (pyStr "duplicate") (by simp [classifierPats])
    have h11 := h (pyStr "workspace") (by simp [classifierPats])
    have h12 := h (pyStr "access") (by simp [classifierPats])
    have h13 := h (pyStr "quota") (by simp [classifierPats])
    have h14 := h (pyStr "limit") (by simp [classifierPats])
    have h15 := h (pyStr "invalid") (by simp [classifierPats])
    have h16 := h (pyStr "bad request") (by simp [classifierPats])
    simp [_classify_error, h1, h2, h3, h4, h5, h6, h7, h8, h9, h10, h11,
      h12, h13, h14, h15, h16]
  · intro hp hd
    have hp' : hasSub (pyStr "permission") (pyLower s) = true :=
      hasSub_pyLower _ _ (by decide) hp
    have hd' : hasSub (pyStr "denied") (pyLower s) = true :=
      hasSub_pyLower _ _ (by decide) hd
    simp [_classify_error, hp', hd']

theorem c7_witness :
    _classify_error (pyStr "permission denied, object not found")
        = .PERMISSION_DENIED
      ∧ _classify_error (pyStr "xyzzy") = .INTERNAL_ERROR :=
  ⟨(c7_classifier_total_deterministic
      (pyStr "permission denied, object not found")).2.2.2
      (by decide) (by decide),
   (c7_classifier_total_deterministic (pyStr "xyzzy")).2.2.1 (by decide)⟩

/-! ## Claim C8 -/

theorem hasSub_self (p : PyStr) : hasSub p p = true := by
  simpa using hasSub_self_append p []

theorem hasSub_code_shortCircuitMsg (ctx : TestContext) (an : PyStr)
    (err : ErrorInfo) :
    hasSub err.code.value (shortCircuitMsg ctx an err) = true := by
  unfold shortCircuitMsg
  repeat' split
  all_goals
    simp only [List.append_assoc]
    repeat
      first
        | exact hasSub_self_append _ _
        | apply hasSub_append_left

theorem hasSub_message_shortCircuitMsg (ctx : TestContext) (an : PyStr)
    (err : ErrorInfo) :
    hasSub err.message (shortCircuitMsg ctx an err) = true := by
  unfold shortCircuitMsg
  repeat' split
  all_goals
    simp only [List.append_assoc]
    repeat
      first
        | exact hasSub_self_append _ _
        | exact hasSub_self _
        | apply hasSub_append_left

/-- C8: when a step's action raised (a classified error is stored in the
context) and the step's validation is not `validate_authentication_denied`,
the validation phase raises an `AssertionError` whose message contains the
classified error's code and message, and the validation function's body is
never invoked (the outcome is independent of the body). -/
theorem c8_validation_short_circuit (ctx : TestContext) (v : Validation)
    (action_name : PyStr) (err : ErrorInfo)
    (h1 : ctx.last_error = some err)
    (h2 : v.vname ≠ pyStr "validate_authentication_denied") :
    raisedWithInfo (execute_validation ctx v action_name)
        err.code.value err.message = true
      ∧ execute_validation ctx v action_name
        = execute_validation ctx ⟨v.vname, fun _ => none⟩ action_name := by
  have hv : ∀ body, execute_validation ctx ⟨v.vname, body⟩ action_name
      = .raisedBeforeBody (shortCircuitMsg ctx action_name err) := by
    intro body
    unfold execute_validation
    rw [h1]
    simp [h2]
  have hv' : execute_validation ctx v action_name
      = .raisedBeforeBody (shortCircuitMsg ctx action_name err) := hv v.body
  refine ⟨?_, by rw [hv', hv]⟩
  rw [hv']
  simp only [raisedWithInfo, Bool.and_eq_true]
  exact ⟨hasSub_code_shortCircuitMsg ctx action_name err,
    hasSub_message_shortCircuitMsg ctx action_name err⟩

theorem c8_witness :
    raisedWithInfo
        (execute_validation
          ⟨some ⟨.FORBIDDEN, pyStr "forbidden: no access", none⟩,
           some (pyStr "alice"), some (pyStr "ws-a")⟩
          ⟨pyStr "validate_model_created", fun _ => none⟩
          (pyStr "create_model"))
        (ErrorCode.FORBIDDEN).value (pyStr "forbidden: no access") = true :=
  (c8_validation_short_circuit
    ⟨some ⟨.FORBIDDEN, pyStr "forbidden: no access", none⟩,
     some (pyStr "alice"), some (pyStr "ws-a")⟩
    ⟨pyStr "validate_model_created", fun _ => none⟩
    (pyStr "create_model")
    ⟨.FORBIDDEN, pyStr "forbidden: no access", none⟩
    rfl (by decide)).1

/-! ## Claim C4 -/

theorem slash_not_in_main (rt : ResourceType) :
    '/' ∉ rt.get_k8s_resource.toList := by
  cases rt <;> decide

theorem slash_in_subs (rt : ResourceType) :
    ∀ s ∈ rt.get_k8s_sub_resources, '/' ∈ s.toList := by
  cases rt <;> decide

theorem not_isSubResourceRule_of_noSlash (r : V1PolicyRule) (s : String)
    (hs : s ∈ r.resources) (hn : '/' ∉ s.toList) : ¬ isSubResourceRule r :=
  fun h => hn (h.2 s hs)

/-- Each rule in the output of `create_role_rules _ _ none` is the main
rule, the auto-detected sub-resource rule, the core rule or the RBAC rule
(with the guards under which the first two are present). -/
theorem create_role_rules_none_cases (verbs : List KubeVerb)
    (resources : List ResourceType) (r : V1PolicyRule)
    (hr : r ∈ create_role_rules verbs resources none) :
    (resources.map ResourceType.get_k8s_resource ≠ []
        ∧ r = ⟨["mlflow.kubeflow.org"],
               resources.map ResourceType.get_k8s_resource,
               verbs.map KubeVerb.value⟩)
      ∨ ((resources.flatMap ResourceType.get_k8s_sub_resources ≠ []
            ∧ KubeVerb.create ∈ verbs)
          ∧ r = ⟨["mlflow.kubeflow.org"],
                 resources.flatMap ResourceType.get_k8s_sub_resources,
                 ["create"]⟩)
      ∨ r = ⟨[""], ["namespaces", "serviceaccounts", "secrets"],
             if KubeVerb.create ∉ verbs then ["get", "list"]
             else ["get", "list", "create"]⟩
      ∨ r = ⟨["rbac.authorization.k8s.io"], ["roles", "rolebindings"],
             ["get", "list"]⟩ := by
  simp only [create_role_rules, List.mem_append] at hr
  rcases hr with ((h | h) | h) | h
  · left
    split at h
    · simp at h
    · next hne => exact ⟨hne, by simpa using h⟩
  · right; left
    rw [if_neg (by simp)] at h
    split at h
    · next hcond => exact ⟨hcond, by simpa using h⟩
    · simp at h
  · right; right; left; simpa using h
  · right; right; right; simpa using h

/-- C4: with `subresources` not supplied (`None`), a sub-resource rule
(non-empty resource list all of whose entries are `parent/sub` names) is
present in the produced rule list iff the verbs contain `create` and some
requested kind declares sub-resources; and any such rule carries verb list
exactly `["create"]` and resource list exactly the concatenation of the
requested kinds' declared sub-resources.  In particular no sub-resource rule
is produced when `create` is absent. -/
theorem c4_subresource_autodetection (verbs : List KubeVerb)
    (resources : List ResourceType) :
    ((∃ r ∈ create_role_rules verbs resources none, isSubResourceRule r) ↔
        KubeVerb.create ∈ verbs
          ∧ resources.flatMap ResourceType.get_k8s_sub_resources ≠ [])
      ∧ (∀ r ∈ create_role_rules verbs resources none, isSubResourceRule r →
          r.verbs = ["create"]
            ∧ r.resources
              = resources.flatMap ResourceType.get_k8s_sub_resources) := by
  have hauto : resources.flatMap ResourceType.get_k8s_sub_resources ≠ [] →
      isSubResourceRule ⟨["mlflow.kubeflow.org"],
        resources.flatMap ResourceType.get_k8s_sub_resources, ["create"]⟩ := by
    intro hg
    refine ⟨hg, fun s hs => ?_⟩
    simp only [List.mem_flatMap] at hs
    obtain ⟨rt, _, hmem⟩ := hs
    exact slash_in_subs rt s hmem
  have hnotmain : ∀ r : V1PolicyRule,
      r.resources = resources.map ResourceType.get_k8s_resource →
      resources.map ResourceType.get_k8s_resource ≠ [] →
      ¬ isSubResourceRule r := by
    intro r hres hne
    cases resources with
    | nil => simp at hne
    | cons rt rest =>
      refine not_isSubResourceRule_of_noSlash r rt.get_k8s_resource ?_
        (slash_not_in_main rt)
      rw [hres]; simp
  constructor
  · constructor
    · rintro ⟨r, hr, hsub⟩
      rcases create_role_rules_none_cases verbs resources r hr with
        ⟨hne, rfl⟩ | ⟨hcond, rfl⟩ | rfl | rfl
      · exact absurd hsub (hnotmain _ rfl hne)
      · exact ⟨hcond.2, hcond.1⟩
      · exact absurd hsub
          (not_isSubResourceRule_of_noSlash _ "namespaces" (by simp)
            (by decide))
      · exact absurd hsub
          (not_isSubResourceRule_of_noSlash _ "roles" (by simp) (by decide))
    · rintro ⟨hc, hg⟩
      refine ⟨⟨["mlflow.kubeflow.org"],
        resources.flatMap ResourceType.get_k8s_sub_resources, ["create"]⟩,
        ?_, hauto hg⟩
      simp only [create_role_rules, List.mem_append]
      left; left; right
      rw [if_neg (by simp)]
      rw [if_pos ⟨hg, hc⟩]
      simp
  · intro r hr hsub
    rcases create_role_rules_none_cases verbs resources r hr with
      ⟨hne, rfl⟩ | ⟨_, rfl⟩ | rfl | rfl
    · exact absurd hsub (hnotmain _ rfl hne)
    · exact ⟨rfl, rfl⟩
    · exact absurd hsub
        (not_isSubResourceRule_of_noSlash _ "namespaces" (by simp)
          (by decide))
    · exact absurd hsub
        (not_isSubResourceRule_of_noSlash _ "roles" (by simp) (by decide))

theorem c4_witness :
    (∃ r ∈ create_role_rules [KubeVerb.create, KubeVerb.delete]
        [ResourceType.EXPERIMENTS, ResourceType.GATEWAY_MODEL_DEFINITIONS]
        none, isSubResourceRule r)
      ∧ ((⟨["mlflow.kubeflow.org"], ["gatewaymodeldefinitions/use"],
           ["create"]⟩ : V1PolicyRule).verbs = ["create"]
          ∧ (⟨["mlflow.kubeflow.org"], ["gatewaymodeldefinitions/use"],
              ["create"]⟩ : V1PolicyRule).resources
            = ([ResourceType.EXPERIMENTS,
                ResourceType.GATEWAY_MODEL_DEFINITIONS].flatMap
                ResourceType.get_k8s_sub_resources)) :=
  ⟨(c4_subresource_autodetection [KubeVerb.create, KubeVerb.delete]
      [ResourceType.EXPERIMENTS,
       ResourceType.GATEWAY_MODEL_DEFINITIONS]).1.mpr ⟨by decide, by decide⟩,
   (c4_subresource_autodetection [KubeVerb.create, KubeVerb.delete]
      [ResourceType.EXPERIMENTS, ResourceType.GATEWAY_MODEL_DEFINITIONS]).2
     ⟨["mlflow.kubeflow.org"], ["gatewaymodeldefinitions/use"], ["create"]⟩
     (by decide) (by decide)⟩

/-! ## Claim C1 -/

theorem backoff_sleeps_step (dly : ℚ) (m : Nat) :
    dly :: (List.range m).map (fun i => dly * (6 / 5) * (6 / 5) ^ i)
      = (List.range (m + 1)).map (fun i => dly * (6 / 5) ^ i) := by
  rw [List.range_succ_eq_map, List.map_cons, List.map_map]
  refine congrArg₂ List.cons (by norm_num) ?_
  refine (List.map_congr_left fun i _ => ?_).symm
  simp only [Function.comp_apply, pow_succ]
  ring

/-- Behaviour of the inner retry loop of `manager/rbac.py` on a stub that
denies the next `m` queries and allows the one after: it issues exactly
`m + 1` queries against the same group, sleeping the backoff sequence
between denials, and reports success. -/
theorem Manager.attemptLoop_succeeds (stub : Nat → SarOutcome) (maxR : Nat)
    (g : String) :
    ∀ (m fuel attempt q : Nat) (dly : ℚ) (tr : List (String × SarOutcome))
      (sl : List ℚ),
    m < fuel → attempt + m < maxR →
    (∀ n, n < m → stub (q + n) = .denied) → stub (q + m) = .allowed →
    Manager.attemptLoop stub maxR g fuel attempt ⟨q, dly, tr, sl⟩ =
      (true, ⟨q + m + 1, dly * (6 / 5) ^ m,
              tr ++ (List.replicate m (g, SarOutcome.denied)
                ++ [(g, SarOutcome.allowed)]),
              sl ++ (List.range m).map (fun i => dly * (6 / 5) ^ i)⟩) := by
  intro m
  induction m with
  | zero =>
    intro fuel attempt q dly tr sl hmf hma hden hall
    cases fuel with
    | zero => omega
    | succ f =>
      have hq : stub q = .allowed := by simpa using hall
      simp [Manager.attemptLoop, VSt.query, hq]
  | succ m ih =>
    intro fuel attempt q dly tr sl hmf hma hden hall
    cases fuel with
    | zero => omega
    | succ f =>
      have h0 : stub q = .denied := by simpa using hden 0 (Nat.succ_pos m)
      have hlt : attempt < maxR - 1 := by omega
      have hrec := ih f (attempt + 1) (q + 1) (dly * (6 / 5))
        (tr ++ [(g, SarOutcome.denied)]) (sl ++ [dly])
        (by omega) (by omega)
        (fun n hn => by
          have h := hden (n + 1) (by omega)
          rwa [show q + (n + 1) = q + 1 + n by omega] at h)
        (by
          have h := hall
          rwa [show q + (m + 1) = q + 1 + m by omega] at h)
      simp only [Manager.attemptLoop, VSt.query, VSt.sleepBackoff, h0,
        if_pos hlt]
      rw [hrec]
      simp only [Prod.mk.injEq, VSt.mk.injEq, true_and]
      refine ⟨by omega, by rw [pow_succ]; ring, ?_, ?_⟩
      · simp [List.replicate_succ, List.append_assoc]
      · rw [List.append_assoc, List.singleton_append, backoff_sleeps_step]

/-- C1 (amended to the `manager/rbac.py` implementation): given a stub
denying the first `k < max_retries` decision queries and allowing query
`k + 1`, `verify_rbac_permissions` returns success after exactly `k + 1`
queries, all issued against the single qualifier `"mlflow.kubeflow.org"`
(never a second qualifier), with the backoff sleeps
`retry_delay * 1.2 ^ i` (`i < k`) between the denied attempts. -/
theorem c1_manager_success_path (stub : Nat → SarOutcome)
    (k max_retries : Nat) (d : ℚ) (hk : k < max_retries)
    (hden : ∀ n, n < k → stub n = .denied) (hall : stub k = .allowed) :
    Manager.verify_rbac_permissions stub max_retries d =
      (.verified,
       ⟨k + 1, d * (6 / 5) ^ k,
        List.replicate k ("mlflow.kubeflow.org", SarOutcome.denied)
          ++ [("mlflow.kubeflow.org", SarOutcome.allowed)],
        (List.range k).map (fun i => d * (6 / 5) ^ i)⟩)
      ∧ (Manager.verify_rbac_permissions stub max_retries d).2.trace.length
        = k + 1
      ∧ ∀ e ∈ (Manager.verify_rbac_permissions stub max_retries d).2.trace,
          e.1 = "mlflow.kubeflow.org" := by
  have hloop := Manager.attemptLoop_succeeds stub max_retries
    "mlflow.kubeflow.org" k max_retries 0 0 d [] [] hk (by omega)
    (fun n hn => by simpa using hden n hn) (by simpa using hall)
  have hmain : Manager.verify_rbac_permissions stub max_retries d =
      (.verified,
       ⟨k + 1, d * (6 / 5) ^ k,
        List.replicate k ("mlflow.kubeflow.org", SarOutcome.denied)
          ++ [("mlflow.kubeflow.org", SarOutcome.allowed)],
        (List.range k).map (fun i => d * (6 / 5) ^ i)⟩) := by
    simp only [Manager.verify_rbac_permissions, Manager.groupLoop,
      Manager.api_groups_to_try]
    rw [hloop]
    simp
  refine ⟨hmain, ?_, ?_⟩
  · rw [hmain]; simp
  · rw [hmain]
    intro e he
    simp only [List.mem_append, List.mem_replicate, List.mem_singleton] at he
    rcases he with ⟨_, he⟩ | he <;> simp [he]

theorem c1_witness :
    Manager.verify_rbac_permissions
        (fun n => if n < 1 then SarOutcome.denied else SarOutcome.allowed)
        3 2 =
      (.verified,
       ⟨1 + 1, 2 * (6 / 5) ^ 1,
        List.replicate 1 ("mlflow.kubeflow.org", SarOutcome.denied)
          ++ [("mlflow.kubeflow.org", SarOutcome.allowed)],
        (List.range 1).map (fun i => 2 * (6 / 5) ^ i)⟩) :=
  (c1_manager_success_path
    (fun n => if n < 1 then SarOutcome.denied else SarOutcome.allowed)
    1 3 2 (by decide)
    (fun n hn => by
      have : n = 0 := by omega
      subst this; rfl)
    (by decide)).1

/-- C1 counterexample for the `managers/k8s/rbac.py` implementation: with a
stub denying query 1 (on the first qualifier) and allowing query 2, and
`max_retries = 3`, the call succeeds after 2 queries but the SECOND query is
issued against the second qualifier `"mlflow.org"` — the implementation
moves to the next qualifier after a single denial instead of retrying the
first, so "never issues a query for any second qualifier" fails. -/
theorem c1_counterexample_k8s :
    (ManagersK8s.verify_rbac_permissions
        (fun n => if n = 0 then SarOutcome.denied else SarOutcome.allowed)
        3 1).2.trace.map Prod.fst
      = ["mlflow.kubeflow.org", "mlflow.org"]
      ∧ (ManagersK8s.verify_rbac_permissions
          (fun n => if n = 0 then SarOutcome.denied else SarOutcome.allowed)
          3 1).1 = .verified := by
  decide

/-! ## Claim C3 -/

/-- The manager retry loop, when it does not succeed, consumes its whole
attempt budget: exactly `fuel` queries. -/
theorem Manager.attemptLoop_false_length (stub : Nat → SarOutcome)
    (maxR : Nat) (g : String) :
    ∀ (fuel attempt : Nat) (st : VSt), attempt + fuel ≤ maxR →
    (Manager.attemptLoop stub maxR g fuel attempt st).1 = false →
    (Manager.attemptLoop stub maxR g fuel attempt st).2.trace.length
      = st.trace.length + fuel := by
  intro fuel
  induction fuel with
  | zero => intro attempt st _ _; rfl
  | succ f ih =>
    intro attempt st hle hfalse
    rcases hstub : stub st.qcount with _ | _ | _
    · simp only [Manager.attemptLoop, VSt.query, hstub] at hfalse
      exact absurd hfalse (by decide)
    · simp only [Manager.attemptLoop, VSt.query, VSt.sleepBackoff,
        hstub] at hfalse ⊢
      by_cases hc : attempt < maxR - 1
      · rw [if_pos hc] at hfalse ⊢
        rw [ih (attempt + 1) _ (by omega) hfalse]
        simp; omega
      · rw [if_neg hc] at hfalse ⊢
        rw [ih (attempt + 1) _ (by omega) hfalse]
        simp; omega
    · have hlt : attempt < maxR := by omega
      simp only [Manager.attemptLoop, VSt.query, VSt.sleepBackoff, hstub,
        if_pos hlt] at hfalse ⊢
      rw [ih (attempt + 1) _ (by omega) hfalse]
      simp; omega

/-- The manager group loop, when it fails, has issued exactly
`maxR` queries per group. -/
theorem Manager.groupLoop_false_length (stub : Nat → SarOutcome)
    (maxR : Nat) :
    ∀ (gs : List String) (st : VSt),
    (Manager.groupLoop stub maxR gs st).1 = false →
    (Manager.groupLoop stub maxR gs st).2.trace.length
      = st.trace.length + gs.length * maxR := by
  intro gs
  induction gs with
  | nil => intro st _; simp [Manager.groupLoop]
  | cons g gs ih =>
    intro st hfalse
    simp only [Manager.groupLoop] at hfalse ⊢
    rcases hr : (Manager.attemptLoop stub maxR g maxR 0 st).1 with _ | _
    · simp only [hr, if_neg (by decide : ¬ false = true)] at hfalse ⊢
      rw [ih _ hfalse,
        Manager.attemptLoop_false_length stub maxR g maxR 0 st (by omega) hr]
      simp only [List.length_cons, Nat.succ_mul]
      ring
    · simp [hr] at hfalse

/-- The k8s retry loop issues at most `fuel` queries. -/
theorem ManagersK8s.attemptLoop_length_le (stub : Nat → SarOutcome)
    (maxR : Nat) (g : String) :
    ∀ (fuel attempt : Nat) (st : VSt),
    (ManagersK8s.attemptLoop stub maxR g fuel attempt st).2.trace.length
      ≤ st.trace.length + fuel := by
  intro fuel
  induction fuel with
  | zero => intro attempt st; simp [ManagersK8s.attemptLoop]
  | succ f ih =>
    intro attempt st
    rcases hstub : stub st.qcount with _ | _ | _ <;>
      simp only [ManagersK8s.attemptLoop, VSt.query, VSt.sleepBackoff, hstub]
    · simp only [List.length_append, List.length_cons, List.length_nil]
      omega
    · split <;>
        · simp only [List.length_append, List.length_cons, List.length_nil]
          omega
    · split
      · calc (ManagersK8s.attemptLoop stub maxR g f (attempt + 1) _).2.trace.length
            ≤ _ := ih (attempt + 1) _
          _ ≤ st.trace.length + (f + 1) := by
              simp only [List.length_append, List.length_cons, List.length_nil]
              omega
      · simp only [List.length_append, List.length_cons, List.length_nil]
        omega

/-- The k8s group loop issues at most `maxR` queries per group. -/
theorem ManagersK8s.groupLoop_length_le (stub : Nat → SarOutcome)
    (maxR : Nat) :
    ∀ (gs : List String) (st : VSt),
    (ManagersK8s.groupLoop stub maxR gs st).2.trace.length
      ≤ st.trace.length + gs.length * maxR := by
  intro gs
  induction gs with
  | nil => intro st; simp [ManagersK8s.groupLoop]
  | cons g gs ih =>
    intro st
    simp only [ManagersK8s.groupLoop]
    have hb := ManagersK8s.attemptLoop_length_le stub maxR g maxR 0 st
    split
    · calc (ManagersK8s.attemptLoop stub maxR g maxR 0 st).2.trace.length
          ≤ st.trace.length + maxR := hb
        _ ≤ st.trace.length + (g :: gs).length * maxR := by
            simp only [List.length_cons, Nat.succ_mul]
            omega
    · calc (ManagersK8s.groupLoop stub maxR gs
            (ManagersK8s.attemptLoop stub maxR g maxR 0 st).2).2.trace.length
          ≤ (ManagersK8s.attemptLoop stub maxR g maxR 0 st).2.trace.length
              + gs.length * maxR := ih _
        _ ≤ st.trace.length + maxR + gs.length * maxR := by omega
        _ = st.trace.length + (g :: gs).length * maxR := by
            simp only [List.length_cons, Nat.succ_mul]
            ring

/-- On an always-denying stub the manager retry loop never succeeds. -/
theorem Manager.attemptLoop_denied_false (stub : Nat → SarOutcome)
    (maxR : Nat) (g : String) (hstub : ∀ n, stub n = .denied) :
    ∀ (fuel attempt : Nat) (st : VSt),
    (Manager.attemptLoop stub maxR g fuel attempt st).1 = false := by
  intro fuel
  induction fuel with
  | zero => intro attempt st; rfl
  | succ f ih =>
    intro attempt st
    simp only [Manager.attemptLoop, VSt.query, VSt.sleepBackoff, hstub]
    split
    · exact ih (attempt + 1) _
    · exact ih (attempt + 1) _

/-- On an always-denying stub the manager group loop never succeeds. -/
theorem Manager.groupLoop_denied_false (stub : Nat → SarOutcome)
    (maxR : Nat) (hstub : ∀ n, stub n = .denied) :
    ∀ (gs : List String) (st : VSt),
    (Manager.groupLoop stub maxR gs st).1 = false := by
  intro gs
  induction gs with
  | nil => intro st; rfl
  | cons g gs ih =>
    intro st
    simp only [Manager.groupLoop,
      Manager.attemptLoop_denied_false stub maxR g hstub maxR 0 st]
    simpa using ih _

/-- On an always-denying stub the k8s retry loop never succeeds. -/
theorem ManagersK8s.attemptLoop_denied_never_true (stub : Nat → SarOutcome)
    (maxR : Nat) (g : String) (hstub : ∀ n, stub n = .denied) :
    ∀ (fuel attempt : Nat) (st : VSt),
    (ManagersK8s.attemptLoop stub maxR g fuel attempt st).1 = false := by
  intro fuel
  cases fuel with
  | zero => intro attempt st; rfl
  | succ f =>
    intro attempt st
    simp only [ManagersK8s.attemptLoop, VSt.query, VSt.sleepBackoff, hstub]
    split <;> rfl

/-- On an always-denying stub the k8s group loop never succeeds. -/
theorem ManagersK8s.groupLoop_denied_never_true (stub : Nat → SarOutcome)
    (maxR : Nat) (hstub : ∀ n, stub n = .denied) :
    ∀ (gs : List String) (st : VSt),
    (ManagersK8s.groupLoop stub maxR gs st).1 = false := by
  intro gs
  induction gs with
  | nil => intro st; rfl
  | cons g gs ih =>
    intro st
    simp only [ManagersK8s.groupLoop,
      ManagersK8s.attemptLoop_denied_never_true stub maxR g hstub maxR 0 st]
    simpa using ih _

/-- When the manager retry loop fails, every query it added to the trace
was denied or errored (no allowed decision was observed). -/
theorem Manager.attemptLoop_false_no_allowed (stub : Nat → SarOutcome)
    (maxR : Nat) (g : String) :
    ∀ (fuel attempt : Nat) (st : VSt),
    (Manager.attemptLoop stub maxR g fuel attempt st).1 = false →
    ∀ e ∈ (Manager.attemptLoop stub maxR g fuel attempt st).2.trace,
      e ∈ st.trace ∨ e.2 ≠ SarOutcome.allowed := by
  intro fuel
  induction fuel with
  | zero => intro attempt st _ e he; exact Or.inl he
  | succ f ih =>
    intro attempt st hfalse
    have hdecomp : ∀ d : SarOutcome, d ≠ SarOutcome.allowed →
        ∀ e : String × SarOutcome, e ∈ st.trace ++ [(g, d)] →
        e ∈ st.trace ∨ e.2 ≠ SarOutcome.allowed := by
      intro d hd e he
      rcases List.mem_append.mp he with h | h
      · exact Or.inl h
      · simp only [List.mem_singleton] at h
        subst h
        exact Or.inr hd
    have hstep : ∀ (st' : VSt),
        st'.trace = st.trace ++ [(g, SarOutcome.denied)]
          ∨ st'.trace = st.trace ++ [(g, SarOutcome.apiError)] →
        (Manager.attemptLoop stub maxR g f (attempt + 1) st').1 = false →
        ∀ e ∈ (Manager.attemptLoop stub maxR g f (attempt + 1) st').2.trace,
          e ∈ st.trace ∨ e.2 ≠ SarOutcome.allowed := by
      intro st' htr hf e he
      rcases ih (attempt + 1) st' hf e he with h | h
      · rcases htr with htr | htr <;>
          · rw [htr] at h
            exact hdecomp _ (by decide) e h
      · exact Or.inr h
    rcases hstub : stub st.qcount with _ | _ | _
    · simp only [Manager.attemptLoop, VSt.query, hstub] at hfalse
      exact absurd hfalse (by decide)
    · simp only [Manager.attemptLoop, VSt.query, VSt.sleepBackoff,
        hstub] at hfalse ⊢
      by_cases hc : attempt < maxR - 1
      · rw [if_pos hc] at hfalse ⊢
        exact hstep _ (Or.inl rfl) hfalse
      · rw [if_neg hc] at hfalse ⊢
        exact hstep _ (Or.inl rfl) hfalse
    · simp only [Manager.attemptLoop, VSt.query, VSt.sleepBackoff,
        hstub] at hfalse ⊢
      by_cases hc : attempt < maxR
      · rw [if_pos hc] at hfalse ⊢
        exact hstep _ (Or.inr rfl) hfalse
      · rw [if_neg hc] at hfalse ⊢
        exact hdecomp _ (by decide)

/-- When the manager group loop fails, no query in the trace was allowed. -/
theorem Manager.groupLoop_false_no_allowed (stub : Nat → SarOutcome)
    (maxR : Nat) :
    ∀ (gs : List String) (st : VSt),
    (Manager.groupLoop stub maxR gs st).1 = false →
    ∀ e ∈ (Manager.groupLoop stub maxR gs st).2.trace,
      e ∈ st.trace ∨ e.2 ≠ SarOutcome.allowed := by
  intro gs
  induction gs with
  | nil => intro st _ e he; exact Or.inl he
  | cons g gs ih =>
    intro st hfalse
    simp only [Manager.groupLoop] at hfalse ⊢
    rcases hr : (Manager.attemptLoop stub maxR g maxR 0 st).1 with _ | _
    · rw [if_neg (by simp [hr])] at hfalse ⊢
      intro e he
      rcases ih _ hfalse e he with h | h
      · exact Manager.attemptLoop_false_no_allowed stub maxR g maxR 0 st hr
          e h
      · exact Or.inr h
    · rw [if_pos (by simp [hr])] at hfalse
      simp [hr] at hfalse

/-- When the k8s retry loop fails, every query it added to the trace was
denied or errored. -/
theorem ManagersK8s.attemptLoop_no_allowed_of_false (stub : Nat → SarOutcome)
    (maxR : Nat) (g : String) :
    ∀ (fuel attempt : Nat) (st : VSt),
    (ManagersK8s.attemptLoop stub maxR g fuel attempt st).1 = false →
    ∀ e ∈ (ManagersK8s.attemptLoop stub maxR g fuel attempt st).2.trace,
      e ∈ st.trace ∨ e.2 ≠ SarOutcome.allowed := by
  intro fuel
  induction fuel with
  | zero => intro attempt st _ e he; exact Or.inl he
  | succ f ih =>
    intro attempt st hfalse
    have hdecomp : ∀ d : SarOutcome, d ≠ SarOutcome.allowed →
        ∀ e : String × SarOutcome, e ∈ st.trace ++ [(g, d)] →
        e ∈ st.trace ∨ e.2 ≠ SarOutcome.allowed := by
      intro d hd e he
      rcases List.mem_append.mp he with h | h
      · exact Or.inl h
      · simp only [List.mem_singleton] at h
        subst h
        exact Or.inr hd
    rcases hstub : stub st.qcount with _ | _ | _
    · simp only [ManagersK8s.attemptLoop, VSt.query, hstub] at hfalse
      exact absurd hfalse (by decide)
    · simp only [ManagersK8s.attemptLoop, VSt.query, VSt.sleepBackoff,
        hstub] at hfalse ⊢
      by_cases hc : attempt < maxR - 1
      · rw [if_pos hc]
        exact hdecomp _ (by decide)
      · rw [if_neg hc]
        exact hdecomp _ (by decide)
    · simp only [ManagersK8s.attemptLoop, VSt.query, VSt.sleepBackoff,
        hstub] at hfalse ⊢
      by_cases hc : attempt < maxR - 1
      · rw [if_pos hc] at hfalse ⊢
        intro e he
        rcases ih (attempt + 1) _ hfalse e he with h | h
        · exact hdecomp _ (by decide) e h
        · exact Or.inr h
      · rw [if_neg hc]
        exact hdecomp _ (by decide)

/-- When the k8s group loop fails, no query in the trace was allowed. -/
theorem ManagersK8s.groupLoop_no_allowed_of_false (stub : Nat → SarOutcome)
    (maxR : Nat) :
    ∀ (gs : List String) (st : VSt),
    (ManagersK8s.groupLoop stub maxR gs st).1 = false →
    ∀ e ∈ (ManagersK8s.groupLoop stub maxR gs st).2.trace,
      e ∈ st.trace ∨ e.2 ≠ SarOutcome.allowed := by
  intro gs
  induction gs with
  | nil => intro st _ e he; exact Or.inl he
  | cons g gs ih =>
    intro st hfalse
    simp only [ManagersK8s.groupLoop] at hfalse ⊢
    rcases hr : (ManagersK8s.attemptLoop stub maxR g maxR 0 st).1 with _ | _
    · rw [if_neg (by simp [hr])] at hfalse ⊢
      intro e he
      rcases ih _ hfalse e he with h | h
      · exact ManagersK8s.attemptLoop_no_allowed_of_false stub maxR g maxR 0 st
          hr e h
      · exact Or.inr h
    · rw [if_pos (by simp [hr])] at hfalse
      simp [hr] at hfalse

/-- C3: on a stub that always returns "denied" both `verify_rbac_permissions`
implementations terminate within `qualifiers × max_retries` decision queries
— the `manager/rbac.py` variant raises (`raisedError`) exactly after
consuming the full budget (1 qualifier × `max_retries` queries), the
`managers/k8s/rbac.py` variant warns and returns without raising; in
general an allowed decision at any issued query yields success, the manager
variant raises only after its full budget is exhausted, and the k8s variant
never raises at all. -/
theorem c3_verifier_termination (stub : Nat → SarOutcome)
    (max_retries : Nat) (d : ℚ) :
    ((∀ n, stub n = SarOutcome.denied) →
        (Manager.verify_rbac_permissions stub max_retries d).1 = .raisedError
          ∧ (Manager.verify_rbac_permissions stub max_retries d).2.trace.length
            = Manager.api_groups_to_try.length * max_retries
          ∧ (ManagersK8s.verify_rbac_permissions stub max_retries d).1
            = .warnedAndContinued)
      ∧ (ManagersK8s.verify_rbac_permissions stub max_retries d).2.trace.length
        ≤ ManagersK8s.api_groups_to_try.length * max_retries
      ∧ (∀ e ∈ (Manager.verify_rbac_permissions stub max_retries d).2.trace,
          e.2 = SarOutcome.allowed →
          (Manager.verify_rbac_permissions stub max_retries d).1 = .verified)
      ∧ (∀ e ∈ (ManagersK8s.verify_rbac_permissions stub max_retries d).2.trace,
          e.2 = SarOutcome.allowed →
          (ManagersK8s.verify_rbac_permissions stub max_retries d).1
            = .verified)
      ∧ ((Manager.verify_rbac_permissions stub max_retries d).1 = .raisedError →
          (Manager.verify_rbac_permissions stub max_retries d).2.trace.length
            = Manager.api_groups_to_try.length * max_retries)
      ∧ (ManagersK8s.verify_rbac_permissions stub max_retries d).1
        ≠ .raisedError := by
  refine ⟨?_, ?_, ?_, ?_, ?_, ?_⟩
  · intro hstub
    have hf1 := Manager.groupLoop_denied_false stub max_retries hstub
      Manager.api_groups_to_try ⟨0, d, [], []⟩
    have hf2 := ManagersK8s.groupLoop_denied_never_true stub max_retries hstub
      ManagersK8s.api_groups_to_try ⟨0, d, [], []⟩
    have hl1 := Manager.groupLoop_false_length stub max_retries
      Manager.api_groups_to_try ⟨0, d, [], []⟩ hf1
    refine ⟨by simp [Manager.verify_rbac_permissions, hf1], ?_,
      by simp [ManagersK8s.verify_rbac_permissions, hf2]⟩
    have hv2 : (Manager.verify_rbac_permissions stub max_retries d).2
        = (Manager.groupLoop stub max_retries Manager.api_groups_to_try
            ⟨0, d, [], []⟩).2 := by
      simp [Manager.verify_rbac_permissions, hf1]
    rw [hv2, hl1]
    simp
  · have hb := ManagersK8s.groupLoop_length_le stub max_retries
      ManagersK8s.api_groups_to_try ⟨0, d, [], []⟩
    have hv2 : (ManagersK8s.verify_rbac_permissions stub max_retries d).2
        = (ManagersK8s.groupLoop stub max_retries
            ManagersK8s.api_groups_to_try ⟨0, d, [], []⟩).2 := by
      simp only [ManagersK8s.verify_rbac_permissions]
      split <;> rfl
    rw [hv2]
    simpa using hb
  · intro e he hall
    by_cases hr : (Manager.groupLoop stub max_retries
        Manager.api_groups_to_try ⟨0, d, [], []⟩).1
    · simp [Manager.verify_rbac_permissions, hr]
    · exfalso
      have hf : (Manager.groupLoop stub max_retries
          Manager.api_groups_to_try ⟨0, d, [], []⟩).1 = false := by
        simpa using hr
      have hv2 : (Manager.verify_rbac_permissions stub max_retries d).2
          = (Manager.groupLoop stub max_retries Manager.api_groups_to_try
              ⟨0, d, [], []⟩).2 := by
        simp [Manager.verify_rbac_permissions, hf]
      rw [hv2] at he
      rcases Manager.groupLoop_false_no_allowed stub max_retries
          Manager.api_groups_to_try ⟨0, d, [], []⟩ hf e he with h | h
      · simp at h
      · exact h hall
  · intro e he hall
    by_cases hr : (ManagersK8s.groupLoop stub max_retries
        ManagersK8s.api_groups_to_try ⟨0, d, [], []⟩).1
    · simp [ManagersK8s.verify_rbac_permissions, hr]
    · exfalso
      have hf : (ManagersK8s.groupLoop stub max_retries
          ManagersK8s.api_groups_to_try ⟨0, d, [], []⟩).1 = false := by
        simpa using hr
      have hv2 : (ManagersK8s.verify_rbac_permissions stub max_retries d).2
          = (ManagersK8s.groupLoop stub max_retries
              ManagersK8s.api_groups_to_try ⟨0, d, [], []⟩).2 := by
        simp [ManagersK8s.verify_rbac_permissions, hf]
      rw [hv2] at he
      rcases ManagersK8s.groupLoop_no_allowed_of_false stub max_retries
          ManagersK8s.api_groups_to_try ⟨0, d, [], []⟩ hf e he with h | h
      · simp at h
      · exact h hall
  · intro hres
    by_cases hr : (Manager.groupLoop stub max_retries
        Manager.api_groups_to_try ⟨0, d, [], []⟩).1
    · simp [Manager.verify_rbac_permissions, hr] at hres
    · have hf : (Manager.groupLoop stub max_retries
          Manager.api_groups_to_try ⟨0, d, [], []⟩).1 = false := by
        simpa using hr
      have hv2 : (Manager.verify_rbac_permissions stub max_retries d).2
          = (Manager.groupLoop stub max_retries Manager.api_groups_to_try
              ⟨0, d, [], []⟩).2 := by
        simp [Manager.verify_rbac_permissions, hf]
      rw [hv2, Manager.groupLoop_false_length stub max_retries
        Manager.api_groups_to_try ⟨0, d, [], []⟩ hf]
      simp
  · simp only [ManagersK8s.verify_rbac_permissions]
    split <;> simp

theorem c3_witness :
    (Manager.verify_rbac_permissions (fun _ => SarOutcome.denied) 2 1).1
        = .raisedError
      ∧ (Manager.verify_rbac_permissions
          (fun _ => SarOutcome.denied) 2 1).2.trace.length
        = Manager.api_groups_to_try.length * 2
      ∧ (ManagersK8s.verify_rbac_permissions
          (fun _ => SarOutcome.denied) 2 1).1 = .warnedAndContinued :=
  (c3_verifier_termination (fun _ => SarOutcome.denied) 2 1).1 fun _ => rfl
